import Mathlib

/-
  Verification of the vapi-squadless webhook responder (src/main.go).

  The embedding models the two core components:
  - AssistantCache: the global map `phoneToAssistantCache` (caller phone
    number to assistant description), modelled as `String → Option String`.
  - AssistantProvisioner: `getOrCreateAssistant` plus `createInitialAssistant`.
    The external text-generation collaborator (`oai.CreateChatCompletion`)
    is a parameter `llm` taking the model identifier and the message list and
    returning the pair (response, error), mirroring the Go call. The
    provisioner also returns the list of collaborator invocations it made,
    so that "exactly one call with exactly these messages" is a statement
    about the returned log.
  - handleVAPIWebhook: the webhook handler, over an already-parsed payload.

  Go runtime panics (nil pointer dereference, index out of range) are
  modelled with `Except GoPanic`: the Go code prints
  `response.Choices[0].Message.Content` before checking the error, and logs
  `payload.Message.Call.ID` without a nil check, so both code paths can
  panic and are embedded as `Except.error`.
-/

namespace VapiSquadless

/-- A chat message sent to the text-generation collaborator
(openai.ChatCompletionMessage: role, content). -/
structure ChatMessage where
  role : String
  content : String
deriving DecidableEq

/-- One choice of a chat completion response (openai.ChatCompletionChoice). -/
structure ChatChoice where
  message : ChatMessage
deriving DecidableEq

/-- A chat completion response (openai.ChatCompletionResponse); only the
`Choices` field is read by the program. -/
structure ChatResponse where
  choices : List ChatChoice
deriving DecidableEq

/-- The external text-generation collaborator: takes the model identifier and
the message list, returns the response plus an optional error (Go's
`(response, err)` pair; `none` is a nil error). -/
abbrev LLM := String → List ChatMessage → ChatResponse × Option String

/-- A Go runtime panic reachable in the embedded code paths. -/
inductive GoPanic where
  | indexOutOfRange
  | nilPointerDereference
deriving DecidableEq

/-- VAPIFunctionArguments (Go struct): optional assistant description. -/
structure VAPIFunctionArguments where
  assistant : Option String
deriving DecidableEq

/-- VAPIFunction (Go struct): tool-call function name and arguments. -/
structure VAPIFunction where
  name : String
  arguments : VAPIFunctionArguments
deriving DecidableEq

/-- VAPIToolCall (Go struct): id, type and function of one tool call. -/
structure VAPIToolCall where
  id : String
  type : String
  function : VAPIFunction
deriving DecidableEq

/-- VAPICustomer (Go struct): optional name and phone number. -/
structure VAPICustomer where
  name : Option String
  number : Option String
deriving DecidableEq

/-- VAPIPhoneCall (Go struct): call id and optional assistant id. -/
structure VAPIPhoneCall where
  id : String
  assistantId : Option String
deriving DecidableEq

/-- VAPIWebhookMessage (Go struct): the discriminated webhook message.
`call` and `customer` are pointers in Go, hence `Option` here. -/
structure VAPIWebhookMessage where
  type : String
  toolCalls : List VAPIToolCall
  call : Option VAPIPhoneCall
  customer : Option VAPICustomer
deriving DecidableEq

/-- VAPIWebhookPayload (Go struct): wraps the message. -/
structure VAPIWebhookPayload where
  message : VAPIWebhookMessage
deriving DecidableEq

/-- One entry of the assistant's `destinations` list in the transferCall
tool specification built by the Go code. -/
structure Destination where
  type : String
  number : String
deriving DecidableEq

/-- One entry of the assistant's `tools` list built by the Go code. -/
structure ToolSpec where
  type : String
  destinations : List Destination
deriving DecidableEq

/-- The `Model` map built by the Go code (`map[string]interface{}` whose
shape is fixed by the two literals in main.go). -/
structure ModelSpec where
  model : String
  provider : String
  messages : List ChatMessage
  toolIds : List String
  tools : List ToolSpec
deriving DecidableEq

/-- The `Voice` map built by the Go code. -/
structure VoiceSpec where
  model : String
  voiceId : String
  provider : String
deriving DecidableEq

/-- The `Transcriber` map built by the Go code. -/
structure TranscriberSpec where
  model : String
  language : String
  provider : String
deriving DecidableEq

/-- VAPIAssistant (Go struct): the assistant configuration returned to the
calling platform. `firstMessage` and `firstMessageMode` are pointers in Go,
hence `Option` here. -/
structure VAPIAssistant where
  name : String
  model : ModelSpec
  voice : VoiceSpec
  transcriber : TranscriberSpec
  firstMessage : Option String
  firstMessageMode : Option String
deriving DecidableEq

/-- The global cache `phoneToAssistantCache : map[string]string`:
phone number to assistant description; `none` means no entry. -/
abbrev Cache := String → Option String

/-- Map lookup (`description, exists := phoneToAssistantCache[id]`). -/
def getCache (cache : Cache) (id : String) : Option String :=
  cache id

/-- Map write (`phoneToAssistantCache[id] = description`): unconditional
upsert. -/
def putCache (cache : Cache) (id description : String) : Cache :=
  fun k => if k = id then some description else cache k

/-- The cache at process start: empty. -/
def emptyCache : Cache := fun _ => none

/-- The fixed system instruction sent to the collaborator
(main.go line 87). -/
def promptEngineerInstruction : String :=
  "You are a prompt engineer. Generate a system prompt for an AI assistant based on this description. The prompt should be concise and clear."

/-- The fixed suffix appended to the generated prompt (the raw string of
main.go lines 108-112, with %s replaced by the platform phone number; the
raw string literal keeps the source newlines and two-tab indentations). -/
def customPromptSuffix (vapiPhoneNumber : String) : String :=
  "\n\t\tFor your first message, introduce yourself and state your purpose. Be concise and clear.\n\t\tThen, the caller will describe an assistant that they want to speak to. Call the createAssistant tool with the description.\n\t\tAfter the createAssistant tool call is successful, transfer the caller to "
    ++ vapiPhoneNumber ++ ".\n\t\t"

/-- The static generator prompt (the raw string of main.go lines 160-162,
with %s replaced by the phone number; the raw string literal keeps the
source newline and one-tab indentations). -/
def initialAssistantPrompt (phoneNumber : String) : String :=
  "You are a helpful assistant. Greet the caller and ask how you can help them today. They will tell you an agent that they want to speak to.\n\tAfter the createAssistant tool call is successful, transfer the caller to "
    ++ phoneNumber ++ ". Don\x27t transfer the call until the createAssistant tool call is successful.\n\t"

/-- createInitialAssistant (main.go lines 159-205): the static Generator
assistant configuration. -/
def createInitialAssistant (phoneNumber : String) : VAPIAssistant :=
  let prompt := initialAssistantPrompt phoneNumber
  let firstMessage := "Hello! How can I assist you today?"
  let firstMessageMode := "assistant-speaks-first"
  { name := "AssistantGenerator"
    model :=
      { model := "gpt-4o-mini"
        provider := "openai"
        messages := [{ role := "system", content := prompt }]
        toolIds := ["d137092e-0250-4151-abf0-205ff2b0a438"]
        tools :=
          [{ type := "transferCall"
             destinations := [{ type := "number", number := phoneNumber }] }] }
    voice :=
      { model := "sonic-english"
        voiceId := "248be419-c632-4f23-adf1-5324ed7dbf1d"
        provider := "cartesia" }
    transcriber :=
      { model := "general", language := "en", provider := "deepgram" }
    firstMessage := some firstMessage
    firstMessageMode := some firstMessageMode }

/-- getOrCreateAssistant (main.go lines 78-156). Besides the Go result, it
returns the log of collaborator invocations (model identifier and messages
of each call made). The Go code prints `response.Choices[0].Message.Content`
(line 100) before checking `err` (line 102): with an empty `Choices` slice
that print panics with an index-out-of-range, so this embedding reaches the
error-fallback branch only when at least one choice is present. -/
def getOrCreateAssistant (llm : LLM) (cache : Cache)
    (callerPhoneNumber vapiPhoneNumber : String) :
    Except GoPanic VAPIAssistant × List (String × List ChatMessage) :=
  match cache callerPhoneNumber with
  | some description =>
      let oaiMessages : List ChatMessage :=
        [ { role := "system", content := promptEngineerInstruction },
          { role := "user", content := description } ]
      let response := (llm "gpt-4o-mini" oaiMessages).1
      let err := (llm "gpt-4o-mini" oaiMessages).2
      let result : Except GoPanic VAPIAssistant :=
        match response.choices with
        | [] => Except.error GoPanic.indexOutOfRange
        | choice :: _ =>
          match err with
          | some _ => Except.ok (createInitialAssistant vapiPhoneNumber)
          | none =>
            let prompt := choice.message.content ++ customPromptSuffix vapiPhoneNumber
            let firstMessageMode := "assistant-speaks-first-with-model-generated-message"
            Except.ok
              { name := "CustomAssistant"
                model :=
                  { model := "gpt-4o-mini"
                    provider := "openai"
                    messages := [{ role := "system", content := prompt }]
                    toolIds := ["d137092e-0250-4151-abf0-205ff2b0a438"]
                    tools :=
                      [{ type := "transferCall"
                         destinations := [{ type := "number", number := vapiPhoneNumber }] }] }
                voice :=
                  { model := "sonic-english"
                    voiceId := "248be419-c632-4f23-adf1-5324ed7dbf1d"
                    provider := "cartesia" }
                transcriber :=
                  { model := "general", language := "en", provider := "deepgram" }
                firstMessage := none
                firstMessageMode := some firstMessageMode }
      (result, [("gpt-4o-mini", oaiMessages)])
  | none => (Except.ok (createInitialAssistant vapiPhoneNumber), [])

/-- One entry of the `results` list in the tool-call response body. -/
structure ToolCallResult where
  toolCallId : String
  result : String
deriving DecidableEq

/-- The body of the handler's HTTP response: empty (SendStatus), the
assistant-request JSON, or the tool-call results JSON. -/
inductive ResponseBody where
  | empty : ResponseBody
  | assistantResponse (assistant : VAPIAssistant) : ResponseBody
  | results (entries : List ToolCallResult) : ResponseBody
deriving DecidableEq

/-- The handler's HTTP response: status code and body. -/
structure HandlerResponse where
  status : Nat
  body : ResponseBody
deriving DecidableEq

/-- The tool-calls loop of handleVAPIWebhook (main.go lines 244-277).
A recognized createAssistant call with customer number and assistant
description present writes the cache and returns the results JSON at once;
a createAssistant call missing either field hits `break`, which in Go exits
only the switch, so the loop continues with the next tool call; other names
are no-ops. `none` means the loop finished without returning. -/
def processToolCalls (customer : Option VAPICustomer) (cache : Cache) :
    List VAPIToolCall → Option (HandlerResponse × Cache)
  | [] => none
  | toolCall :: rest =>
    if toolCall.function.name = "createAssistant" then
      match customer with
      | none => processToolCalls customer cache rest
      | some cust =>
        match cust.number with
        | none => processToolCalls customer cache rest
        | some phoneNumber =>
          match toolCall.function.arguments.assistant with
          | none => processToolCalls customer cache rest
          | some assistantDesc =>
            some
              ({ status := 200
                 body := ResponseBody.results
                   [{ toolCallId := toolCall.id
                      result := "Assistant created successfully" }] },
               putCache cache phoneNumber assistantDesc)
    else processToolCalls customer cache rest

/-- handleVAPIWebhook (main.go lines 208-281), over an already-parsed
payload. For an assistant-request the Go code logs
`payload.Message.Call.ID` (line 226) without a nil check, so an absent
`call` is a nil-pointer-dereference panic; the customer number is
nil-checked and defaults to the empty string. The result pairs the HTTP
response with the cache after the request. -/
def handleVAPIWebhook (vapiPhoneNumber : String) (llm : LLM) (cache : Cache)
    (payload : VAPIWebhookPayload) : Except GoPanic (HandlerResponse × Cache) :=
  if payload.message.type = "assistant-request" then
    let phoneNumber :=
      match payload.message.customer with
      | some customer =>
        match customer.number with
        | some number => number
        | none => ""
      | none => ""
    match payload.message.call with
    | none => Except.error GoPanic.nilPointerDereference
    | some _ =>
      match (getOrCreateAssistant llm cache phoneNumber vapiPhoneNumber).1 with
      | Except.error p => Except.error p
      | Except.ok assistant =>
        Except.ok
          ({ status := 200, body := ResponseBody.assistantResponse assistant }, cache)
  else if payload.message.type = "tool-calls" then
    match processToolCalls payload.message.customer cache payload.message.toolCalls with
    | some (response, newCache) => Except.ok (response, newCache)
    | none => Except.ok ({ status := 200, body := ResponseBody.empty }, cache)
  else
    Except.ok ({ status := 200, body := ResponseBody.empty }, cache)

/-- A collaborator that fails the way go-openai fails: the zero-value
response (no choices) together with a non-nil error. -/
def llmFailing : LLM := fun _ _ => (⟨[]⟩, some "connection refused")

/-- A cache holding the spec's example entry. -/
def cachePirate : Cache := putCache emptyCache "+15551230000" "a pirate"

/-- C9: for every identity id (including the empty string) and description d,
put(id, d) followed by get(id) returns d; and after put(id, d1) then
put(id, d2), get(id) returns d2 (last-write-wins overwrite). -/
theorem cache_put_get_last_write_wins (cache : Cache) (id d d1 d2 : String) :
    getCache (putCache cache id d) id = some d
      ∧ getCache (putCache (putCache cache id d1) id d2) id = some d2 := by
  constructor <;> simp [getCache, putCache]

/-- C3: for every caller identity with no cache entry, getOrCreateAssistant
returns the Generator configuration (createInitialAssistant), whose name is
"AssistantGenerator", whose FirstMessage is the fixed greeting and whose
FirstMessageMode is "assistant-speaks-first". -/
theorem no_cache_entry_returns_generator (llm : LLM) (cache : Cache)
    (callerPhoneNumber vapiPhoneNumber : String)
    (h : cache callerPhoneNumber = none) :
    (getOrCreateAssistant llm cache callerPhoneNumber vapiPhoneNumber).1
        = Except.ok (createInitialAssistant vapiPhoneNumber)
      ∧ (createInitialAssistant vapiPhoneNumber).name = "AssistantGenerator"
      ∧ (createInitialAssistant vapiPhoneNumber).firstMessage
          = some "Hello! How can I assist you today?"
      ∧ (createInitialAssistant vapiPhoneNumber).firstMessageMode
          = some "assistant-speaks-first" := by
  refine ⟨?_, rfl, rfl, rfl⟩
  unfold getOrCreateAssistant
  rw [h]

/-- C3 witness: at a concrete uncached caller, the Generator configuration
comes back with the fixed greeting. -/
theorem no_cache_entry_returns_generator_witness :
    (getOrCreateAssistant llmFailing emptyCache "+15557654321" "+15550001111").1
        = Except.ok (createInitialAssistant "+15550001111")
      ∧ (createInitialAssistant "+15550001111").name = "AssistantGenerator"
      ∧ (createInitialAssistant "+15550001111").firstMessage
          = some "Hello! How can I assist you today?"
      ∧ (createInitialAssistant "+15550001111").firstMessageMode
          = some "assistant-speaks-first" :=
  no_cache_entry_returns_generator llmFailing emptyCache "+15557654321" "+15550001111" rfl

/-- C4: for every caller identity with a cache entry, getOrCreateAssistant
issues exactly one collaborator call, whose message list is exactly the
fixed prompt-engineer system turn followed by a user turn carrying the
cached description verbatim. -/
theorem cached_entry_one_collaborator_call (llm : LLM) (cache : Cache)
    (callerPhoneNumber vapiPhoneNumber description : String)
    (h : cache callerPhoneNumber = some description) :
    (getOrCreateAssistant llm cache callerPhoneNumber vapiPhoneNumber).2
      = [("gpt-4o-mini",
          [ { role := "system", content := promptEngineerInstruction },
            { role := "user", content := description } ])] := by
  unfold getOrCreateAssistant
  rw [h]

/-- C4 witness: with the example cache entry, exactly one collaborator call
is made, carrying the fixed instruction and the cached description. -/
theorem cached_entry_one_collaborator_call_witness :
    (getOrCreateAssistant llmFailing cachePirate "+15551230000" "+15550001111").2
      = [("gpt-4o-mini",
          [ { role := "system", content := promptEngineerInstruction },
            { role := "user", content := "a pirate" } ])] :=
  cached_entry_one_collaborator_call llmFailing cachePirate "+15551230000" "+15550001111"
    "a pirate" rfl

/-- C1: the claim says a failing collaborator call makes getOrCreateAssistant
fall back to the Generator configuration, but the Go code prints
`response.Choices[0].Message.Content` before checking the error, so the
realistic failure (zero-value response with no choices, non-nil error)
panics with an index-out-of-range instead of returning any configuration. -/
theorem collaborator_failure_panics_not_fallback :
    (getOrCreateAssistant llmFailing cachePirate "+15551230000" "+15550001111").1
      = Except.error GoPanic.indexOutOfRange := by
  rfl

/-- An assistant-request payload whose `call` field is absent. -/
def assistantRequestNoCall : VAPIWebhookPayload :=
  { message :=
      { type := "assistant-request"
        toolCalls := []
        call := none
        customer := some { name := none, number := some "+15551230000" } } }

/-- C2: the claim says an assistant-request payload missing the call
identifier still gets HTTP 200, but the Go handler logs
`payload.Message.Call.ID` without a nil check, so an absent `call` is a
nil-pointer-dereference panic and no 200 response is produced. -/
theorem missing_call_field_panics :
    handleVAPIWebhook "+15550001111" llmFailing emptyCache assistantRequestNoCall
      = Except.error GoPanic.nilPointerDereference := by
  rfl

/-- C5: for every caller identity with a cache entry, when the collaborator
call succeeds (a first choice is present and the error is nil),
getOrCreateAssistant returns the Custom configuration: system prompt equal
to the generated text with the fixed transfer-instruction suffix appended,
FirstMessageMode "assistant-speaks-first-with-model-generated-message", and
no literal FirstMessage. -/
theorem collaborator_success_returns_custom (llm : LLM) (cache : Cache)
    (callerPhoneNumber vapiPhoneNumber description : String)
    (choice : ChatChoice) (rest : List ChatChoice)
    (hc : cache callerPhoneNumber = some description)
    (hllm : llm "gpt-4o-mini"
        [ { role := "system", content := promptEngineerInstruction },
          { role := "user", content := description } ]
      = ({ choices := choice :: rest }, none)) :
    (getOrCreateAssistant llm cache callerPhoneNumber vapiPhoneNumber).1
      = Except.ok
          { name := "CustomAssistant"
            model :=
              { model := "gpt-4o-mini"
                provider := "openai"
                messages :=
                  [{ role := "system"
                     content := choice.message.content ++ customPromptSuffix vapiPhoneNumber }]
                toolIds := ["d137092e-0250-4151-abf0-205ff2b0a438"]
                tools :=
                  [{ type := "transferCall"
                     destinations := [{ type := "number", number := vapiPhoneNumber }] }] }
            voice :=
              { model := "sonic-english"
                voiceId := "248be419-c632-4f23-adf1-5324ed7dbf1d"
                provider := "cartesia" }
            transcriber :=
              { model := "general", language := "en", provider := "deepgram" }
            firstMessage := none
            firstMessageMode := some "assistant-speaks-first-with-model-generated-message" } := by
  simp only [getOrCreateAssistant, hc, hllm]

/-- A collaborator that always succeeds with a fixed generated prompt. -/
def llmSucceeding : LLM :=
  fun _ _ => ({ choices := [{ message := { role := "assistant", content := "You are a pirate." } }] }, none)

/-- C5 witness: with the example cache entry and a succeeding collaborator,
the Custom configuration with the composed prompt comes back. -/
theorem collaborator_success_returns_custom_witness :
    (getOrCreateAssistant llmSucceeding cachePirate "+15551230000" "+15550001111").1
      = Except.ok
          { name := "CustomAssistant"
            model :=
              { model := "gpt-4o-mini"
                provider := "openai"
                messages :=
                  [{ role := "system"
                     content := "You are a pirate." ++ customPromptSuffix "+15550001111" }]
                toolIds := ["d137092e-0250-4151-abf0-205ff2b0a438"]
                tools :=
                  [{ type := "transferCall"
                     destinations := [{ type := "number", number := "+15550001111" }] }] }
            voice :=
              { model := "sonic-english"
                voiceId := "248be419-c632-4f23-adf1-5324ed7dbf1d"
                provider := "cartesia" }
            transcriber :=
              { model := "general", language := "en", provider := "deepgram" }
            firstMessage := none
            firstMessageMode := some "assistant-speaks-first-with-model-generated-message" } :=
  collaborator_success_returns_custom llmSucceeding cachePirate "+15551230000" "+15550001111"
    "a pirate" { message := { role := "assistant", content := "You are a pirate." } } [] rfl rfl

/-- C6: every assistant configuration actually returned by
getOrCreateAssistant, Generator or Custom, carries exactly one transferCall
tool whose sole destination number is the platform's return phone number. -/
theorem transfer_destination_invariant (llm : LLM) (cache : Cache)
    (callerPhoneNumber vapiPhoneNumber : String) (a : VAPIAssistant)
    (h : (getOrCreateAssistant llm cache callerPhoneNumber vapiPhoneNumber).1
          = Except.ok a) :
    a.model.tools
      = [{ type := "transferCall"
           destinations := [{ type := "number", number := vapiPhoneNumber }] }] := by
  rcases hc : cache callerPhoneNumber with _ | description
  · simp only [getOrCreateAssistant, hc] at h
    cases h
    rfl
  · simp only [getOrCreateAssistant, hc] at h
    rcases hch : (llm "gpt-4o-mini"
        [ { role := "system", content := promptEngineerInstruction },
          { role := "user", content := description } ]).1.choices with _ | ⟨choice, rest⟩
    · rw [hch] at h
      exact absurd h (by simp)
    · rw [hch] at h
      rcases herr : (llm "gpt-4o-mini"
          [ { role := "system", content := promptEngineerInstruction },
            { role := "user", content := description } ]).2 with _ | e
      · rw [herr] at h
        cases h
        rfl
      · rw [herr] at h
        cases h
        rfl

/-- C6 witness: at a concrete uncached caller, the returned Generator
configuration transfers to the configured return number. -/
theorem transfer_destination_invariant_witness :
    (createInitialAssistant "+15550001111").model.tools
      = [{ type := "transferCall"
           destinations := [{ type := "number", number := "+15550001111" }] }] :=
  transfer_destination_invariant llmFailing emptyCache "+15557654321" "+15550001111"
    (createInitialAssistant "+15550001111") rfl

/-- C7: a tool-calls event whose createAssistant call has the customer
number and the assistant argument present writes the description into the
cache under that number and answers HTTP 200 with exactly one result entry:
the call's id and the fixed success string. -/
theorem create_assistant_caches_and_acknowledges (vapiPhoneNumber : String)
    (llm : LLM) (cache : Cache) (toolCall : VAPIToolCall) (cust : VAPICustomer)
    (call : Option VAPIPhoneCall) (num desc : String)
    (hname : toolCall.function.name = "createAssistant")
    (hnum : cust.number = some num)
    (harg : toolCall.function.arguments.assistant = some desc) :
    handleVAPIWebhook vapiPhoneNumber llm cache
        { message :=
            { type := "tool-calls", toolCalls := [toolCall]
              call := call, customer := some cust } }
      = Except.ok
          ({ status := 200
             body := ResponseBody.results
               [{ toolCallId := toolCall.id, result := "Assistant created successfully" }] },
           putCache cache num desc)
      ∧ getCache (putCache cache num desc) num = some desc := by
  constructor
  · simp only [handleVAPIWebhook, processToolCalls, hname, hnum, harg]
    rfl
  · simp [getCache, putCache]

/-- A concrete valid createAssistant tool call. -/
def pirateToolCall : VAPIToolCall :=
  { id := "call-1", type := "function"
    function := { name := "createAssistant", arguments := { assistant := some "a pirate" } } }

/-- The spec's example customer. -/
def exampleCustomer : VAPICustomer :=
  { name := none, number := some "+15551230000" }

/-- C7 witness: the spec's example event caches "a pirate" under
"+15551230000" and acknowledges call-1 with the fixed success string. -/
theorem create_assistant_caches_and_acknowledges_witness :
    handleVAPIWebhook "+15550001111" llmFailing emptyCache
        { message :=
            { type := "tool-calls", toolCalls := [pirateToolCall]
              call := none, customer := some exampleCustomer } }
      = Except.ok
          ({ status := 200
             body := ResponseBody.results
               [{ toolCallId := pirateToolCall.id, result := "Assistant created successfully" }] },
           putCache emptyCache "+15551230000" "a pirate")
      ∧ getCache (putCache emptyCache "+15551230000" "a pirate") "+15551230000"
          = some "a pirate" :=
  create_assistant_caches_and_acknowledges "+15550001111" llmFailing emptyCache
    pirateToolCall exampleCustomer none "+15551230000" "a pirate" rfl rfl rfl

/-- When every createAssistant entry of the list is missing the customer
number or its assistant argument, the loop falls through without returning
and without touching the cache. -/
theorem processToolCalls_all_invalid_none (customer : Option VAPICustomer)
    (cache : Cache) (toolCalls : List VAPIToolCall)
    (hinv : ∀ p ∈ toolCalls, p.function.name = "createAssistant" →
        (∀ cust, customer = some cust → cust.number = none)
          ∨ p.function.arguments.assistant = none) :
    processToolCalls customer cache toolCalls = none := by
  induction toolCalls with
  | nil => rfl
  | cons p ps ih =>
    have hps : ∀ q ∈ ps, q.function.name = "createAssistant" →
        (∀ cust, customer = some cust → cust.number = none)
          ∨ q.function.arguments.assistant = none :=
      fun q hq => hinv q (List.mem_cons_of_mem p hq)
    by_cases hpn : p.function.name = "createAssistant"
    · rcases customer with _ | cust
      · simp only [processToolCalls, if_pos hpn]
        exact ih hps
      · rcases hinv p (List.mem_cons_self p ps) hpn with hmiss | harg
        · have hn : cust.number = none := hmiss cust rfl
          simp only [processToolCalls, if_pos hpn, hn]
          exact ih hps
        · rcases hn : cust.number with _ | num
          · simp only [processToolCalls, if_pos hpn, hn]
            exact ih hps
          · simp only [processToolCalls, if_pos hpn, hn, harg]
            exact ih hps
    · simp only [processToolCalls, if_neg hpn]
      exact ih hps

/-- C8: a tool-calls event whose createAssistant calls are all missing the
customer number or their assistant argument leaves the cache untouched and
answers HTTP 200 with an empty body, no result entries. -/
theorem create_assistant_missing_field_no_mutation (vapiPhoneNumber : String)
    (llm : LLM) (cache : Cache) (toolCalls : List VAPIToolCall)
    (customer : Option VAPICustomer) (call : Option VAPIPhoneCall)
    (hinv : ∀ p ∈ toolCalls, p.function.name = "createAssistant" →
        (∀ cust, customer = some cust → cust.number = none)
          ∨ p.function.arguments.assistant = none) :
    handleVAPIWebhook vapiPhoneNumber llm cache
        { message :=
            { type := "tool-calls", toolCalls := toolCalls
              call := call, customer := customer } }
      = Except.ok ({ status := 200, body := ResponseBody.empty }, cache) := by
  have hloop := processToolCalls_all_invalid_none customer cache toolCalls hinv
  simp only [handleVAPIWebhook, hloop]
  rfl

/-- A createAssistant tool call missing its assistant argument. -/
def arglessFirstToolCall : VAPIToolCall :=
  { id := "call-9", type := "function"
    function := { name := "createAssistant", arguments := { assistant := none } } }

/-- C8 witness: a createAssistant event whose call lacks the assistant
argument leaves the cache unchanged and gets an empty 200. -/
theorem create_assistant_missing_field_no_mutation_witness :
    handleVAPIWebhook "+15550001111" llmFailing emptyCache
        { message :=
            { type := "tool-calls", toolCalls := [arglessFirstToolCall]
              call := none, customer := some exampleCustomer } }
      = Except.ok ({ status := 200, body := ResponseBody.empty }, emptyCache) :=
  create_assistant_missing_field_no_mutation "+15550001111" llmFailing emptyCache
    [arglessFirstToolCall] (some exampleCustomer) none
    (fun p hp _ => Or.inr (by rw [List.mem_singleton.mp hp]; rfl))

/-- Tool calls that are not a createAssistant with an assistant argument are
skipped by the loop: `break` in the Go switch only leaves the switch, so the
loop moves on to the rest of the list. -/
theorem processToolCalls_skips_invalid (cust : VAPICustomer) (cache : Cache)
    (num : String) (hnum : cust.number = some num)
    (pre : List VAPIToolCall)
    (hpre : ∀ p ∈ pre, p.function.name ≠ "createAssistant"
              ∨ p.function.arguments.assistant = none)
    (rest : List VAPIToolCall) :
    processToolCalls (some cust) cache (pre ++ rest)
      = processToolCalls (some cust) cache rest := by
  induction pre with
  | nil => rfl
  | cons p ps ih =>
    have hps : ∀ q ∈ ps, q.function.name ≠ "createAssistant"
        ∨ q.function.arguments.assistant = none :=
      fun q hq => hpre q (List.mem_cons_of_mem p hq)
    have step : processToolCalls (some cust) cache ((p :: ps) ++ rest)
        = processToolCalls (some cust) cache (ps ++ rest) := by
      rcases hpre p (List.mem_cons_self p ps) with hp | hp
      · simp only [List.cons_append, processToolCalls, if_neg hp]
        rfl
      · by_cases hpn : p.function.name = "createAssistant"
        · simp only [List.cons_append, processToolCalls, if_pos hpn, hnum, hp]
          rfl
        · simp only [List.cons_append, processToolCalls, if_neg hpn]
          rfl
    rw [step, ih hps]

/-- C10: in a tool-calls event, the first createAssistant call with both
required fields present is the only one executed: it alone writes the cache
and is the sole acknowledgement, and every tool call after it is neither
executed nor acknowledged because the handler returns at once. -/
theorem first_valid_create_assistant_only (vapiPhoneNumber : String)
    (llm : LLM) (cache : Cache) (pre post : List VAPIToolCall)
    (toolCall : VAPIToolCall) (cust : VAPICustomer) (call : Option VAPIPhoneCall)
    (num desc : String)
    (hnum : cust.number = some num)
    (hpre : ∀ p ∈ pre, p.function.name ≠ "createAssistant"
              ∨ p.function.arguments.assistant = none)
    (hname : toolCall.function.name = "createAssistant")
    (harg : toolCall.function.arguments.assistant = some desc) :
    handleVAPIWebhook vapiPhoneNumber llm cache
        { message :=
            { type := "tool-calls", toolCalls := pre ++ toolCall :: post
              call := call, customer := some cust } }
      = Except.ok
          ({ status := 200
             body := ResponseBody.results
               [{ toolCallId := toolCall.id, result := "Assistant created successfully" }] },
           putCache cache num desc) := by
  have hloop : processToolCalls (some cust) cache (pre ++ toolCall :: post)
      = some
          ({ status := 200
             body := ResponseBody.results
               [{ toolCallId := toolCall.id, result := "Assistant created successfully" }] },
           putCache cache num desc) := by
    rw [processToolCalls_skips_invalid cust cache num hnum pre hpre]
    simp only [processToolCalls, if_pos hname, hnum, harg]
  simp only [handleVAPIWebhook, hloop]
  rfl

/-- A tool call with a name other than createAssistant. -/
def otherToolCall : VAPIToolCall :=
  { id := "call-0", type := "function"
    function := { name := "transferCall", arguments := { assistant := some "ignored" } } }

/-- A createAssistant tool call missing its assistant argument. -/
def arglessToolCall : VAPIToolCall :=
  { id := "call-2", type := "function"
    function := { name := "createAssistant", arguments := { assistant := none } } }

/-- A second valid createAssistant call, placed after the first one. -/
def ninjaToolCall : VAPIToolCall :=
  { id := "call-3", type := "function"
    function := { name := "createAssistant", arguments := { assistant := some "a ninja" } } }

/-- C10 witness: with an unrelated call and an argument-less createAssistant
before it and a second valid createAssistant after it, only the first valid
call (call-1, "a pirate") is executed and acknowledged. -/
theorem first_valid_create_assistant_only_witness :
    handleVAPIWebhook "+15550001111" llmFailing emptyCache
        { message :=
            { type := "tool-calls"
              toolCalls := [otherToolCall, arglessToolCall] ++ pirateToolCall :: [ninjaToolCall]
              call := none, customer := some exampleCustomer } }
      = Except.ok
          ({ status := 200
             body := ResponseBody.results
               [{ toolCallId := pirateToolCall.id, result := "Assistant created successfully" }] },
           putCache emptyCache "+15551230000" "a pirate") :=
  first_valid_create_assistant_only "+15550001111" llmFailing emptyCache
    [otherToolCall, arglessToolCall] [ninjaToolCall] pirateToolCall exampleCustomer none
    "+15551230000" "a pirate" rfl (by decide) rfl rfl

end VapiSquadless
